import Mathlib

/-!
# Verification of `caret_analyze.value_objects.node`

Shallow embedding of `src/caret_analyze/value_objects/node.py`
(`NodeValue` and `NodeStructValue`) together with the pieces of the
repository it uses that live outside this file (`Util.find_one`,
`Util.flatten`, the leaf struct-value types, `ItemNotFoundError`),
which are modelled from the specification.

Python tuples become Lean `List`s, `Optional[...]` becomes `Option`,
and a method that can raise becomes a function into `Except`.
-/

set_option linter.unusedVariables false

namespace CaretNode

/-- Modelled from the spec: `PublisherStructValue` (module
`value_objects.publisher`, not under `src/`) is a leaf, immutable
structure that carries at minimum a topic name; a `node_name` field is
also carried, so that two publishers on the same topic are
distinguishable values. -/
structure PublisherStructValue where
  node_name : String
  topic_name : String
deriving DecidableEq, Repr

/-- Modelled from the spec: `SubscriptionStructValue` (module
`value_objects.subscription`, not under `src/`) is a leaf, immutable
structure that carries at minimum a topic name, plus a `node_name`. -/
structure SubscriptionStructValue where
  node_name : String
  topic_name : String
deriving DecidableEq, Repr

/-- Modelled from the spec: `CallbackStructValue` (module
`value_objects.callback`, not under `src/`) is a leaf, immutable
structure identified by a callback name. -/
structure CallbackStructValue where
  callback_name : String
deriving DecidableEq, Repr

/-- Modelled from the spec: `CallbackGroupStructValue` (module
`value_objects.callback_group`, not under `src/`) carries a group name
and an ordered sequence of `CallbackStructValue`. -/
structure CallbackGroupStructValue where
  callback_group_name : String
  callbacks : List CallbackStructValue
deriving DecidableEq, Repr

/-- Modelled from the spec: `NodePathStructValue` (module
`value_objects.node_path`, not under `src/`) composes callbacks with a
message context into one subscribe-to-publish latency path; its fields
are opaque to the node module, so an atom carrying a name suffices. -/
structure NodePathStructValue where
  path_name : String
deriving DecidableEq, Repr

/-- Modelled from the spec: `VariablePassingStructValue` (module
`value_objects.variable_passing`, not under `src/`) models a data
dependency between callbacks; opaque to the node module. -/
structure VariablePassingStructValue where
  passing_name : String
deriving DecidableEq, Repr

/-- Modelled from the spec: `MessageContext` (module
`value_objects.message_context`, not under `src/`) is a named
derivation policy; opaque to the node module. -/
structure MessageContext where
  context_name : String
deriving DecidableEq, Repr

/-- Modelled from the spec: `ItemNotFoundError` (module `exceptions`,
not under `src/`) is the NotFound condition; it carries a message
string. -/
structure ItemNotFoundError where
  msg : String
deriving DecidableEq, Repr

namespace Util

/-- Modelled from the spec: `Util.find_one` (module `common`, not under
`src/`) scans the collection for the first element satisfying the
condition, in declared order, and fails with a NotFound condition when
no element matches. -/
def find_one {α : Type} (condition : α → Bool) (items : List α) :
    Except ItemNotFoundError α :=
  match items.find? condition with
  | some x => Except.ok x
  | none => Except.error ⟨"Failed to find item."⟩

/-- Modelled from the spec: `Util.flatten` (module `common`, not under
`src/`) is the order-preserving flattening of a sequence of sequences:
outer order first, then inner order. -/
def flatten {α : Type} (xss : List (List α)) : List α :=
  xss.flatten

end Util

/-- Embedding of `NodeValue` (`node.py`, lines 30-45): a node name and
an optional disambiguating id.  `ValueObject` equality is structural
(field-wise), which is exactly Lean structure equality. -/
structure NodeValue where
  node_name : String
  node_id : Option String
deriving DecidableEq, Repr

/-- Embedding of `NodeStructValue.__init__` (`node.py`, lines 51-67):
the seven fields, stored once at construction. -/
structure NodeStructValue where
  node_name_field : String
  publishers_field : List PublisherStructValue
  subscriptions_field : List SubscriptionStructValue
  callback_groups_field : Option (List CallbackGroupStructValue)
  node_path_values_field : List NodePathStructValue
  variable_passings_field : Option (List VariablePassingStructValue)
  message_contexts_field : List MessageContext
deriving DecidableEq, Repr

namespace NodeStructValue

/-- Embedding of the constructor call: `__init__` assigns each argument
to the corresponding private field, in the source's parameter order. -/
def init (node_name : String)
    (publisher_values : List PublisherStructValue)
    (subscriptions_info : List SubscriptionStructValue)
    (node_path_values : List NodePathStructValue)
    (callback_group_values : Option (List CallbackGroupStructValue))
    (variable_passing_values : Option (List VariablePassingStructValue))
    (message_contexts : List MessageContext) : NodeStructValue where
  node_name_field := node_name
  publishers_field := publisher_values
  subscriptions_field := subscriptions_info
  callback_groups_field := callback_group_values
  node_path_values_field := node_path_values
  variable_passings_field := variable_passing_values
  message_contexts_field := message_contexts

/-- The `node_name` property (`node.py`, lines 69-71). -/
def node_name (self : NodeStructValue) : String :=
  self.node_name_field

/-- The `publisher` property (`node.py`, lines 73-75). -/
def publisher (self : NodeStructValue) : List PublisherStructValue :=
  self.publishers_field

/-- The `publish_topic_names` property (`node.py`, lines 77-79):
`tuple(p.topic_name for p in self._publishers)`. -/
def publish_topic_names (self : NodeStructValue) : List String :=
  self.publishers_field.map (fun p => p.topic_name)

/-- The `subscribe_topic_names` property (`node.py`, lines 81-83):
`tuple(s.topic_name for s in self._subscriptions)`. -/
def subscribe_topic_names (self : NodeStructValue) : List String :=
  self.subscriptions_field.map (fun s => s.topic_name)

/-- The `subscription_values` property (`node.py`, lines 85-87). -/
def subscription_values (self : NodeStructValue) :
    List SubscriptionStructValue :=
  self.subscriptions_field

/-- The `callbacks` property (`node.py`, lines 89-93): `None` when
`_callback_groups is None`, else
`tuple(Util.flatten(cbg.callbacks for cbg in self._callback_groups))`. -/
def callbacks (self : NodeStructValue) :
    Option (List CallbackStructValue) :=
  match self.callback_groups_field with
  | none => none
  | some cbgs =>
      some (Util.flatten (cbgs.map (fun cbg => cbg.callbacks)))

/-- The `callback_names` property (`node.py`, lines 95-99): `None` when
`self.callbacks is None`, else the `callback_name` projection of
`self.callbacks`. -/
def callback_names (self : NodeStructValue) : Option (List String) :=
  match self.callbacks with
  | none => none
  | some cbs => some (cbs.map (fun cb => cb.callback_name))

/-- The `callback_groups` property (`node.py`, lines 101-103). -/
def callback_groups (self : NodeStructValue) :
    Option (List CallbackGroupStructValue) :=
  self.callback_groups_field

/-- The `callback_group_names` property (`node.py`, lines 105-109): `None`
when `self.callback_groups is None`, else the `callback_group_name`
projection of `self.callback_groups`. -/
def callback_group_names (self : NodeStructValue) :
    Option (List String) :=
  match self.callback_groups with
  | none => none
  | some cbgs => some (cbgs.map (fun cbg => cbg.callback_group_name))

/-- The `paths` property (`node.py`, lines 111-113). -/
def paths (self : NodeStructValue) : List NodePathStructValue :=
  self.node_path_values_field

/-- The `variable_passings` property (`node.py`, lines 115-117). -/
def variable_passings (self : NodeStructValue) :
    Option (List VariablePassingStructValue) :=
  self.variable_passings_field

/-- The `message_contexts` property (`node.py`, lines 119-121). -/
def message_contexts (self : NodeStructValue) : List MessageContext :=
  self.message_contexts_field

/-- The `get_subscription` method (`node.py`, lines 123-135):
`Util.find_one` over `_subscriptions` with predicate
`x.topic_name == subscribe_topic_name`; on `ItemNotFoundError` it
re-raises with the message
`'Failed to find subscription info. topic_name: ' + name`. -/
def get_subscription (self : NodeStructValue)
    (subscribe_topic_name : String) :
    Except ItemNotFoundError SubscriptionStructValue :=
  match Util.find_one
      (fun x => x.topic_name == subscribe_topic_name)
      self.subscriptions_field with
  | Except.ok x => Except.ok x
  | Except.error _ =>
      Except.error
        ⟨"Failed to find subscription info. " ++
          ("topic_name: " ++ subscribe_topic_name)⟩

/-- The `get_publisher` method (`node.py`, lines 137-148):
`Util.find_one` over `_publishers` with predicate
`x.topic_name == publish_topic_name`; on `ItemNotFoundError` it
re-raises with the message
`'Failed to find publisher info. topic_name: ' + name`. -/
def get_publisher (self : NodeStructValue)
    (publish_topic_name : String) :
    Except ItemNotFoundError PublisherStructValue :=
  match Util.find_one
      (fun x => x.topic_name == publish_topic_name)
      self.publishers_field with
  | Except.ok x => Except.ok x
  | Except.error _ =>
      Except.error
        ⟨"Failed to find publisher info. " ++
          ("topic_name: " ++ publish_topic_name)⟩

end NodeStructValue

/-- The public operations of `NodeStructValue` (`node.py`, lines
69-148), each with its argument, as one inductive so that statements
can quantify over "every operation". -/
inductive NodeOp where
  | node_name
  | publisher
  | publish_topic_names
  | subscribe_topic_names
  | subscription_values
  | callbacks
  | callback_names
  | callback_groups
  | callback_group_names
  | paths
  | variable_passings
  | message_contexts
  | get_publisher (topic : String)
  | get_subscription (topic : String)
deriving DecidableEq, Repr

/-- The values the operations of `NodeStructValue` can produce. -/
inductive NodeOpResult where
  | str (v : String)
  | strs (v : List String)
  | optStrs (v : Option (List String))
  | pubs (v : List PublisherStructValue)
  | subs (v : List SubscriptionStructValue)
  | optCbs (v : Option (List CallbackStructValue))
  | optCbgs (v : Option (List CallbackGroupStructValue))
  | nodePaths (v : List NodePathStructValue)
  | optVps (v : Option (List VariablePassingStructValue))
  | msgCtxs (v : List MessageContext)
  | pubE (v : Except ItemNotFoundError PublisherStructValue)
  | subE (v : Except ItemNotFoundError SubscriptionStructValue)
deriving Repr

/-- State-passing form of each method call: every method body in
`node.py` lines 69-148 only reads `self._...` fields and contains no
assignment, so the statement-by-statement translation threads the
receiver through unchanged and pairs it with the result. -/
def NodeOp.run : NodeOp → NodeStructValue → NodeOpResult × NodeStructValue
  | .node_name, s => (.str s.node_name, s)
  | .publisher, s => (.pubs s.publisher, s)
  | .publish_topic_names, s => (.strs s.publish_topic_names, s)
  | .subscribe_topic_names, s => (.strs s.subscribe_topic_names, s)
  | .subscription_values, s => (.subs s.subscription_values, s)
  | .callbacks, s => (.optCbs s.callbacks, s)
  | .callback_names, s => (.optStrs s.callback_names, s)
  | .callback_groups, s => (.optCbgs s.callback_groups, s)
  | .callback_group_names, s => (.optStrs s.callback_group_names, s)
  | .paths, s => (.nodePaths s.paths, s)
  | .variable_passings, s => (.optVps s.variable_passings, s)
  | .message_contexts, s => (.msgCtxs s.message_contexts, s)
  | .get_publisher t, s => (.pubE (s.get_publisher t), s)
  | .get_subscription t, s => (.subE (s.get_subscription t), s)

/-- Helper: `List.find?` returns the element at the least index satisfying the
predicate. -/
theorem find?_eq_get_of_first {α : Type} (p : α → Bool) :
    ∀ (l : List α) (i : Nat) (hi : i < l.length),
      p (l.get ⟨i, hi⟩) = true →
      (∀ k (hk : k < i), p (l.get ⟨k, Nat.lt_trans hk hi⟩) = false) →
      l.find? p = some (l.get ⟨i, hi⟩)
  | [], i, hi, _, _ => absurd hi (Nat.not_lt_zero i)
  | a :: l, 0, hi, hp, _ => by
      simp only [List.get] at hp ⊢
      simp [List.find?, hp]
  | a :: l, i + 1, hi, hp, hfirst => by
      have ha : p a = false := by
        have := hfirst 0 (Nat.succ_pos i)
        simpa using this
      have hi' : i < l.length := Nat.lt_of_succ_lt_succ hi
      have hrec := find?_eq_get_of_first p l i hi'
        (by simpa using hp)
        (fun k hk => by
          have := hfirst (k + 1) (Nat.succ_lt_succ hk)
          simpa using this)
      simp only [List.find?, ha]
      simpa using hrec

/-- Sample leaf values used by the concrete witnesses. -/
def pubOut : PublisherStructValue := ⟨"nodeA", "/out"⟩

def pubX1 : PublisherStructValue := ⟨"nodeA", "/x"⟩

def pubX2 : PublisherStructValue := ⟨"nodeB", "/x"⟩

def subIn : SubscriptionStructValue := ⟨"nodeA", "/in"⟩

def subY1 : SubscriptionStructValue := ⟨"nodeA", "/y"⟩

def subY2 : SubscriptionStructValue := ⟨"nodeB", "/y"⟩

def cb1 : CallbackStructValue := ⟨"cb1"⟩

def cb2 : CallbackStructValue := ⟨"cb2"⟩

def cb3 : CallbackStructValue := ⟨"cb3"⟩

def groupA : CallbackGroupStructValue := ⟨"groupA", [cb1, cb2]⟩

def groupB : CallbackGroupStructValue := ⟨"groupB", [cb3]⟩

/-- The end-to-end scenario node of the specification plus callback
groups `A = [cb1, cb2]`, `B = [cb3]`. -/
def sampleNode : NodeStructValue :=
  NodeStructValue.init "nodeA" [pubOut] [subIn] []
    (some [groupA, groupB]) none []

/-- A node with duplicate publisher and subscription topics. -/
def dupNode : NodeStructValue :=
  NodeStructValue.init "nodeB" [pubX1, pubX2] [subY1, subY2] []
    none none []

/-- Claim C1: For every `NodeStructValue`, the derived view `callbacks`
is `none` iff the `callback_groups` field is `none`; otherwise it is
the flattening of all groups' callback sequences in group order, then
within-group order — in particular, when `callback_groups` is an empty
sequence, `callbacks` is an empty sequence, not `none`. -/
theorem callbacks_option_discipline (n : NodeStructValue) :
    (n.callbacks = none ↔ n.callback_groups = none) ∧
    (∀ cbgs, n.callback_groups = some cbgs →
      n.callbacks =
        some ((cbgs.map (fun cbg => cbg.callbacks)).flatten)) ∧
    (n.callback_groups = some [] → n.callbacks = some []) := by
  refine ⟨?_, ?_, ?_⟩
  · cases h : n.callback_groups_field <;>
      simp [NodeStructValue.callbacks, NodeStructValue.callback_groups,
        Util.flatten, h]
  · intro cbgs hc
    simp only [NodeStructValue.callback_groups] at hc
    simp [NodeStructValue.callbacks, Util.flatten, hc]
  · intro hc
    simp only [NodeStructValue.callback_groups] at hc
    simp [NodeStructValue.callbacks, Util.flatten, hc]

/-- Witness for C1: on `sampleNode` (groups `A = [cb1, cb2]` then
`B = [cb3]`) the flattening is `[cb1, cb2, cb3]`, and a node whose
`callback_groups` is the empty sequence has `callbacks = some []`. -/
theorem callbacks_option_discipline_witness :
    sampleNode.callbacks = some [cb1, cb2, cb3] ∧
    (NodeStructValue.init "n" [] [] [] (some []) none []).callbacks
      = some [] := by
  constructor
  · have h := (callbacks_option_discipline sampleNode).2.1
      [groupA, groupB] rfl
    simpa [groupA, groupB] using h
  · exact (callbacks_option_discipline
      (NodeStructValue.init "n" [] [] [] (some []) none [])).2.2 rfl

/-- Claim C3: `publish_topic_names` is the topic-name projection of the
`publisher` sequence: same length, same entries index by index, and
duplicate topic names preserved (the multiplicity of each topic name in
the projection equals the number of publishers carrying it);
`subscribe_topic_names` is the symmetric projection of
`subscription_values`. -/
theorem topic_names_projection (n : NodeStructValue) :
    (n.publish_topic_names.length = n.publisher.length ∧
      (∀ (i : Nat), n.publish_topic_names[i]? =
        (n.publisher[i]?).map
          (fun (p : PublisherStructValue) => p.topic_name)) ∧
      (∀ t, n.publish_topic_names.count t =
        (n.publisher.filter (fun p => p.topic_name == t)).length)) ∧
    (n.subscribe_topic_names.length = n.subscription_values.length ∧
      (∀ (i : Nat), n.subscribe_topic_names[i]? =
        (n.subscription_values[i]?).map
          (fun (s : SubscriptionStructValue) => s.topic_name)) ∧
      (∀ t, n.subscribe_topic_names.count t =
        (n.subscription_values.filter
          (fun s => s.topic_name == t)).length)) := by
  refine ⟨⟨?_, fun i => ?_, fun t => ?_⟩, ⟨?_, fun i => ?_, fun t => ?_⟩⟩
  · simp [NodeStructValue.publish_topic_names, NodeStructValue.publisher]
  · simp [NodeStructValue.publish_topic_names, NodeStructValue.publisher,
      List.getElem?_map]
  · simp only [NodeStructValue.publish_topic_names,
      NodeStructValue.publisher]
    rw [List.count, List.countP_map, List.countP_eq_length_filter]
    rfl
  · simp [NodeStructValue.subscribe_topic_names,
      NodeStructValue.subscription_values]
  · simp [NodeStructValue.subscribe_topic_names,
      NodeStructValue.subscription_values, List.getElem?_map]
  · simp only [NodeStructValue.subscribe_topic_names,
      NodeStructValue.subscription_values]
    rw [List.count, List.countP_map, List.countP_eq_length_filter]
    rfl

/-- Claim C6: `callback_names` is `none` exactly when `callback_groups`
is `none` and otherwise is the `callback_name` projection of
`callbacks`; `callback_group_names` is `none` exactly when
`callback_groups` is `none` and otherwise is the group-name projection
of `callback_groups`. -/
theorem callback_names_projection (n : NodeStructValue) :
    (n.callback_names = none ↔ n.callback_groups = none) ∧
    (∀ cbs, n.callbacks = some cbs →
      n.callback_names = some (cbs.map (fun cb => cb.callback_name))) ∧
    (n.callback_group_names = none ↔ n.callback_groups = none) ∧
    (∀ cbgs, n.callback_groups = some cbgs →
      n.callback_group_names =
        some (cbgs.map (fun cbg => cbg.callback_group_name))) := by
  refine ⟨?_, ?_, ?_, ?_⟩ <;>
    cases h : n.callback_groups_field <;>
      simp [NodeStructValue.callback_names, NodeStructValue.callbacks,
        NodeStructValue.callback_group_names,
        NodeStructValue.callback_groups, h]

/-- Witness for C6 at `sampleNode`: the name projections of the
callback view and of the group sequence. -/
theorem callback_names_projection_witness :
    sampleNode.callback_names = some ["cb1", "cb2", "cb3"] ∧
    sampleNode.callback_group_names = some ["groupA", "groupB"] := by
  constructor
  · have h := (callback_names_projection sampleNode).2.1
      [cb1, cb2, cb3]
      (by simp [sampleNode, NodeStructValue.callbacks,
        NodeStructValue.init, Util.flatten, groupA, groupB])
    simpa [cb1, cb2, cb3] using h
  · have h := (callback_names_projection sampleNode).2.2.2
      [groupA, groupB] rfl
    simpa [groupA, groupB] using h

/-- Claim C7: Two `NodeValue` identities are equal iff both the
`node_name` fields and the `node_id` fields are equal: equality is
structural, field-wise. -/
theorem nodeValue_structural_eq (a b : NodeValue) :
    a = b ↔ (a.node_name = b.node_name ∧ a.node_id = b.node_id) := by
  cases a
  cases b
  simp

/-- Claim C10: Constructor/accessor round-trip: reading the direct
accessors of a freshly constructed `NodeStructValue` returns exactly
the constructor arguments. -/
theorem init_accessor_round_trip (node_name : String)
    (publisher_values : List PublisherStructValue)
    (subscriptions_info : List SubscriptionStructValue)
    (node_path_values : List NodePathStructValue)
    (callback_group_values : Option (List CallbackGroupStructValue))
    (variable_passing_values : Option (List VariablePassingStructValue))
    (message_contexts : List MessageContext) :
    (NodeStructValue.init node_name publisher_values subscriptions_info
        node_path_values callback_group_values variable_passing_values
        message_contexts).node_name = node_name ∧
    (NodeStructValue.init node_name publisher_values subscriptions_info
        node_path_values callback_group_values variable_passing_values
        message_contexts).publisher = publisher_values ∧
    (NodeStructValue.init node_name publisher_values subscriptions_info
        node_path_values callback_group_values variable_passing_values
        message_contexts).subscription_values = subscriptions_info ∧
    (NodeStructValue.init node_name publisher_values subscriptions_info
        node_path_values callback_group_values variable_passing_values
        message_contexts).paths = node_path_values ∧
    (NodeStructValue.init node_name publisher_values subscriptions_info
        node_path_values callback_group_values variable_passing_values
        message_contexts).callback_groups = callback_group_values ∧
    (NodeStructValue.init node_name publisher_values subscriptions_info
        node_path_values callback_group_values variable_passing_values
        message_contexts).variable_passings = variable_passing_values ∧
    (NodeStructValue.init node_name publisher_values subscriptions_info
        node_path_values callback_group_values variable_passing_values
        message_contexts).message_contexts = message_contexts :=
  ⟨rfl, rfl, rfl, rfl, rfl, rfl, rfl⟩

/-- When `find?` over the publishers yields a match, `get_publisher`
returns it (the try-branch of the method). -/
theorem get_publisher_of_find?_some {n : NodeStructValue} {t : String}
    {p : PublisherStructValue}
    (h : n.publisher.find? (fun x => x.topic_name == t) = some p) :
    n.get_publisher t = Except.ok p := by
  simp only [NodeStructValue.publisher] at h
  unfold NodeStructValue.get_publisher Util.find_one
  rw [h]

/-- When no publisher matches, `get_publisher` fails with the re-raised
NotFound condition (the except-branch of the method). -/
theorem get_publisher_of_find?_none {n : NodeStructValue} {t : String}
    (h : n.publisher.find? (fun x => x.topic_name == t) = none) :
    n.get_publisher t =
      Except.error
        ⟨"Failed to find publisher info. " ++ ("topic_name: " ++ t)⟩ := by
  simp only [NodeStructValue.publisher] at h
  unfold NodeStructValue.get_publisher Util.find_one
  rw [h]

/-- When `find?` over the subscriptions yields a match,
`get_subscription` returns it. -/
theorem get_subscription_of_find?_some {n : NodeStructValue} {t : String}
    {s : SubscriptionStructValue}
    (h : n.subscription_values.find?
      (fun x => x.topic_name == t) = some s) :
    n.get_subscription t = Except.ok s := by
  simp only [NodeStructValue.subscription_values] at h
  unfold NodeStructValue.get_subscription Util.find_one
  rw [h]

/-- When no subscription matches, `get_subscription` fails with the
re-raised NotFound condition. -/
theorem get_subscription_of_find?_none {n : NodeStructValue} {t : String}
    (h : n.subscription_values.find?
      (fun x => x.topic_name == t) = none) :
    n.get_subscription t =
      Except.error
        ⟨"Failed to find subscription info. " ++
          ("topic_name: " ++ t)⟩ := by
  simp only [NodeStructValue.subscription_values] at h
  unfold NodeStructValue.get_subscription Util.find_one
  rw [h]

/-- Claim C2: `get_publisher` returns the publisher whose topic name
equals the argument when exactly one such publisher exists, and when no
publisher matches it fails with a NotFound condition whose message
contains the requested topic name and the word `publisher`;
`get_subscription` behaves symmetrically over the subscriptions. -/
theorem get_lookup_contract (n : NodeStructValue) (t : String) :
    (∀ p, p ∈ n.publisher → p.topic_name = t →
      (∀ q, q ∈ n.publisher → q.topic_name = t → q = p) →
      n.get_publisher t = Except.ok p) ∧
    ((∀ p, p ∈ n.publisher → p.topic_name ≠ t) →
      ∃ e, n.get_publisher t = Except.error e ∧
        (∃ a b, e.msg = a ++ (t ++ b)) ∧
        (∃ a b, e.msg = a ++ ("publisher" ++ b))) ∧
    (∀ s, s ∈ n.subscription_values → s.topic_name = t →
      (∀ q, q ∈ n.subscription_values → q.topic_name = t → q = s) →
      n.get_subscription t = Except.ok s) ∧
    ((∀ s, s ∈ n.subscription_values → s.topic_name ≠ t) →
      ∃ e, n.get_subscription t = Except.error e ∧
        (∃ a b, e.msg = a ++ (t ++ b)) ∧
        (∃ a b, e.msg = a ++ ("subscription" ++ b))) := by
  refine ⟨?_, ?_, ?_, ?_⟩
  · intro p hmem hname huniq
    have hsome :
        (n.publisher.find? (fun x => x.topic_name == t)).isSome := by
      rw [List.find?_isSome]
      exact ⟨p, hmem, by simp [hname]⟩
    obtain ⟨q, hq⟩ := Option.isSome_iff_exists.mp hsome
    have hqt : q.topic_name = t := by
      simpa using List.find?_some hq
    have hqp : q = p := huniq q (List.mem_of_find?_eq_some hq) hqt
    rw [hqp] at hq
    exact get_publisher_of_find?_some hq
  · intro hnone
    have h0 : n.publisher.find? (fun x => x.topic_name == t) = none := by
      rw [List.find?_eq_none]
      intro x hx
      simpa using hnone x hx
    refine ⟨⟨"Failed to find publisher info. " ++ ("topic_name: " ++ t)⟩,
      ?_, ?_, ?_⟩
    · exact get_publisher_of_find?_none h0
    · refine ⟨"Failed to find publisher info. " ++ "topic_name: ", "", ?_⟩
      rw [String.append_empty, String.append_assoc]
    · refine ⟨"Failed to find ",
        " info. " ++ ("topic_name: " ++ t), ?_⟩
      have hlit : ("Failed to find publisher info. " : String) =
          ("Failed to find " ++ "publisher") ++ " info. " := rfl
      show ("Failed to find publisher info. " : String) ++
          ("topic_name: " ++ t) = _
      rw [hlit, String.append_assoc, String.append_assoc]
  · intro s hmem hname huniq
    have hsome :
        (n.subscription_values.find?
          (fun x => x.topic_name == t)).isSome := by
      rw [List.find?_isSome]
      exact ⟨s, hmem, by simp [hname]⟩
    obtain ⟨q, hq⟩ := Option.isSome_iff_exists.mp hsome
    have hqt : q.topic_name = t := by
      simpa using List.find?_some hq
    have hqs : q = s := huniq q (List.mem_of_find?_eq_some hq) hqt
    rw [hqs] at hq
    exact get_subscription_of_find?_some hq
  · intro hnone
    have h0 : n.subscription_values.find?
        (fun x => x.topic_name == t) = none := by
      rw [List.find?_eq_none]
      intro x hx
      simpa using hnone x hx
    refine ⟨⟨"Failed to find subscription info. " ++
      ("topic_name: " ++ t)⟩, ?_, ?_, ?_⟩
    · exact get_subscription_of_find?_none h0
    · refine ⟨"Failed to find subscription info. " ++ "topic_name: ",
        "", ?_⟩
      rw [String.append_empty, String.append_assoc]
    · refine ⟨"Failed to find ",
        " info. " ++ ("topic_name: " ++ t), ?_⟩
      have hlit : ("Failed to find subscription info. " : String) =
          ("Failed to find " ++ "subscription") ++ " info. " := rfl
      show ("Failed to find subscription info. " : String) ++
          ("topic_name: " ++ t) = _
      rw [hlit, String.append_assoc, String.append_assoc]

/-- Witness for C2 at the end-to-end scenario node: the unique `/out`
publisher is found, and `/missing` fails with a message containing
`/missing` and `publisher`. -/
theorem get_lookup_contract_witness :
    sampleNode.get_publisher "/out" = Except.ok pubOut ∧
    (∃ e, sampleNode.get_publisher "/missing" = Except.error e ∧
      (∃ a b, e.msg = a ++ ("/missing" ++ b)) ∧
      (∃ a b, e.msg = a ++ ("publisher" ++ b))) := by
  constructor
  · refine (get_lookup_contract sampleNode "/out").1 pubOut ?_ rfl ?_
    · simp [sampleNode, NodeStructValue.init, NodeStructValue.publisher]
    · intro q hq hqt
      simpa [sampleNode, NodeStructValue.init,
        NodeStructValue.publisher] using hq
  · refine (get_lookup_contract sampleNode "/missing").2.1 ?_
    intro p hp
    have hpp : p = pubOut := by
      simpa [sampleNode, NodeStructValue.init,
        NodeStructValue.publisher] using hp
    subst hpp
    decide

/-- Claim C4: When the publishers contain two or more entries with the
requested topic name, `get_publisher` returns the first matching entry
in declared order, and every call returns that same entry;
symmetrically for `get_subscription`. -/
theorem first_match_policy (n : NodeStructValue) (t : String) :
    (∀ i (hi : i < n.publisher.length),
      (n.publisher.get ⟨i, hi⟩).topic_name = t →
      (∀ k (hk : k < i),
        (n.publisher.get ⟨k, Nat.lt_trans hk hi⟩).topic_name ≠ t) →
      2 ≤ (n.publisher.filter (fun p => p.topic_name == t)).length →
      n.get_publisher t = Except.ok (n.publisher.get ⟨i, hi⟩) ∧
      n.get_publisher t = n.get_publisher t) ∧
    (∀ i (hi : i < n.subscription_values.length),
      (n.subscription_values.get ⟨i, hi⟩).topic_name = t →
      (∀ k (hk : k < i),
        (n.subscription_values.get
          ⟨k, Nat.lt_trans hk hi⟩).topic_name ≠ t) →
      2 ≤ (n.subscription_values.filter
        (fun s => s.topic_name == t)).length →
      n.get_subscription t =
        Except.ok (n.subscription_values.get ⟨i, hi⟩) ∧
      n.get_subscription t = n.get_subscription t) := by
  constructor
  · intro i hi hname hfirst hdup
    refine ⟨?_, rfl⟩
    have hfind := find?_eq_get_of_first
      (fun (p : PublisherStructValue) => p.topic_name == t)
      n.publisher i hi (by simpa using hname)
      (fun k hk => by simpa using hfirst k hk)
    exact get_publisher_of_find?_some hfind
  · intro i hi hname hfirst hdup
    refine ⟨?_, rfl⟩
    have hfind := find?_eq_get_of_first
      (fun (s : SubscriptionStructValue) => s.topic_name == t)
      n.subscription_values i hi (by simpa using hname)
      (fun k hk => by simpa using hfirst k hk)
    exact get_subscription_of_find?_some hfind

/-- Witness for C4 at `dupNode`, whose publishers are
`[pubX1, pubX2]`, both on topic `/x`, and whose subscriptions are
`[subY1, subY2]`, both on `/y`: the first entries are returned. -/
theorem first_match_policy_witness :
    dupNode.get_publisher "/x" = Except.ok pubX1 ∧
    dupNode.get_subscription "/y" = Except.ok subY1 := by
  constructor
  · have h := ((first_match_policy dupNode "/x").1 0 (by decide) rfl
      (fun k hk => absurd hk (Nat.not_lt_zero k)) (by decide)).1
    simpa using h
  · have h := ((first_match_policy dupNode "/y").2 0 (by decide) rfl
      (fun k hk => absurd hk (Nat.not_lt_zero k)) (by decide)).1
    simpa using h

/-- Claim C5: The lookups fail exactly when no entry of the respective
collection matches the requested topic name (raises-iff), and succeed
exactly when some entry matches; every other operation of
`NodeStructValue` is a total function of the embedding (it returns a
plain value, not an `Except`), so NotFound can only arise here. -/
theorem lookup_raises_iff (n : NodeStructValue) (t : String) :
    ((∃ e, n.get_publisher t = Except.error e) ↔
      ∀ p ∈ n.publisher, p.topic_name ≠ t) ∧
    ((∃ p, n.get_publisher t = Except.ok p) ↔
      ∃ p ∈ n.publisher, p.topic_name = t) ∧
    ((∃ e, n.get_subscription t = Except.error e) ↔
      ∀ s ∈ n.subscription_values, s.topic_name ≠ t) ∧
    ((∃ s, n.get_subscription t = Except.ok s) ↔
      ∃ s ∈ n.subscription_values, s.topic_name = t) := by
  have hpub : ((∃ e, n.get_publisher t = Except.error e) ↔
      ∀ p ∈ n.publisher, p.topic_name ≠ t) ∧
      ((∃ p, n.get_publisher t = Except.ok p) ↔
      ∃ p ∈ n.publisher, p.topic_name = t) := by
    cases h : n.publisher.find? (fun x => x.topic_name == t) with
    | none =>
        have he := get_publisher_of_find?_none h
        have hall : ∀ p ∈ n.publisher, p.topic_name ≠ t := by
          intro p hp
          simpa using List.find?_eq_none.mp h p hp
        constructor
        · exact iff_of_true ⟨_, he⟩ hall
        · refine iff_of_false ?_ ?_
          · rintro ⟨p, hp⟩
            rw [he] at hp
            exact Except.noConfusion hp
          · rintro ⟨p, hp, hpt⟩
            exact hall p hp hpt
    | some q =>
        have he := get_publisher_of_find?_some h
        have hqt : q.topic_name = t := by
          simpa using List.find?_some h
        have hqmem : q ∈ n.publisher := List.mem_of_find?_eq_some h
        constructor
        · refine iff_of_false ?_ ?_
          · rintro ⟨e, h2⟩
            rw [he] at h2
            exact Except.noConfusion h2
          · intro hall
            exact hall q hqmem hqt
        · exact iff_of_true ⟨q, he⟩ ⟨q, hqmem, hqt⟩
  have hsub : ((∃ e, n.get_subscription t = Except.error e) ↔
      ∀ s ∈ n.subscription_values, s.topic_name ≠ t) ∧
      ((∃ s, n.get_subscription t = Except.ok s) ↔
      ∃ s ∈ n.subscription_values, s.topic_name = t) := by
    cases h : n.subscription_values.find?
        (fun x => x.topic_name == t) with
    | none =>
        have he := get_subscription_of_find?_none h
        have hall : ∀ s ∈ n.subscription_values, s.topic_name ≠ t := by
          intro s hs
          simpa using List.find?_eq_none.mp h s hs
        constructor
        · exact iff_of_true ⟨_, he⟩ hall
        · refine iff_of_false ?_ ?_
          · rintro ⟨s, hs⟩
            rw [he] at hs
            exact Except.noConfusion hs
          · rintro ⟨s, hs, hst⟩
            exact hall s hs hst
    | some q =>
        have he := get_subscription_of_find?_some h
        have hqt : q.topic_name = t := by
          simpa using List.find?_some h
        have hqmem : q ∈ n.subscription_values :=
          List.mem_of_find?_eq_some h
        constructor
        · refine iff_of_false ?_ ?_
          · rintro ⟨e, h2⟩
            rw [he] at h2
            exact Except.noConfusion h2
          · intro hall
            exact hall q hqmem hqt
        · exact iff_of_true ⟨q, he⟩ ⟨q, hqmem, hqt⟩
  exact ⟨hpub.1, hpub.2, hsub.1, hsub.2⟩

/-- Claim C8: Every operation — every accessor and both lookups,
including a lookup that fails — leaves all seven fields of the
structure unchanged. -/
theorem operations_frame (op : NodeOp) (s : NodeStructValue) :
    ((op.run s).2.node_name_field = s.node_name_field) ∧
    ((op.run s).2.publishers_field = s.publishers_field) ∧
    ((op.run s).2.subscriptions_field = s.subscriptions_field) ∧
    ((op.run s).2.node_path_values_field = s.node_path_values_field) ∧
    ((op.run s).2.callback_groups_field = s.callback_groups_field) ∧
    ((op.run s).2.variable_passings_field = s.variable_passings_field) ∧
    ((op.run s).2.message_contexts_field = s.message_contexts_field) := by
  cases op <;> exact ⟨rfl, rfl, rfl, rfl, rfl, rfl, rfl⟩

/-- Claim C9: Running any operation twice in sequence on the same
instance returns equal values: reads are idempotent. -/
theorem accessors_idempotent (op : NodeOp) (s : NodeStructValue) :
    (op.run ((op.run s).2)).1 = (op.run s).1 := by
  cases op <;> rfl

end CaretNode
